import Mathlib

/-!
Verification of `op-challenger/game/fault/player.go` (GamePlayer lifecycle).

The Go code is embedded shallowly: every external call (contract wrapper
creation, status fetch, depth fetch, resource creator, prestate validation,
responder creation, the agent act step, claim-count fetch) is modelled by an
explicit result supplied through an environment record, and every observable
effect (log lines at their levels, and which external calls were made) is
recorded in an event list, so that claims of the form "never invokes X" or
"logs Y" are statable and provable.
-/

namespace OpChallenger

/-- Modelled from the spec: the game status enum of
`op-challenger/game/types` (the package is not under src/): status is one of
InProgress, DefenderWon, ChallengerWon, and is terminal once not InProgress. -/
inductive GameStatus
  | inProgress
  | challengerWon
  | defenderWon
deriving DecidableEq, Repr

/-- Go errors are modelled as their message strings; `Except GoError` mirrors
a Go `(T, error)` return and `Option GoError` mirrors a bare `error` return
(`none` = nil = success). -/
abbrev GoError := String

/-- `context.Context` is opaque to player.go; it is modelled as an opaque
token so that closures over it (such as the act function) keep their shape. -/
abbrev Ctx := Nat

/-- The logger handle is opaque: player.go only emits through it. -/
abbrev Logger := Nat

/-- The `FaultDisputeGameContract` loader handle. Its fallible methods
(GetStatus, GetClaimCount, GetMaxGameDepth) return results drawn from the
call environments below, since they read external chain state. -/
structure Loader where
  id : Nat
deriving DecidableEq, Repr

/-- Opaque handle for the trace accessor (`types.TraceAccessor`). -/
abbrev TraceAccessor := Nat

/-- Opaque handle for the oracle updater (`types.OracleUpdater`). -/
abbrev OracleUpdater := Nat

/-- Opaque handle for the responder (`responder.FaultResponder`). -/
abbrev Responder := Nat

/-- Log levels of the go-ethereum logger methods used in player.go. -/
inductive LogLevel
  | trace
  | info
  | warn
  | error
deriving DecidableEq, Repr

/-- Observable events of one call into the player: log lines (level and
message) and the external calls it performs. -/
inductive Event
  | log (lvl : LogLevel) (msg : String)
  | actCalled
  | getStatusCalled
  | getClaimCountCalled
  | contractCreateCalled
  | statusFetchCalled
  | depthFetchCalled
  | creatorCalled
  | prestateValidatorCalled
  | responderCreateCalled
deriving DecidableEq, Repr

/-- `type GamePlayer struct` of player.go: the act closure, the configured
stance, the loader, the logger and the cached status. -/
structure GamePlayer where
  act : Ctx → Option GoError
  agreeWithProposedOutput : Bool
  loader : Loader
  logger : Logger
  status : GameStatus

/-- Environment of one `ProgressGame` call: the context and the results the
external world would return for the loader calls made during the cycle. -/
structure ProgressEnv where
  ctx : Ctx
  statusResult : Except GoError GameStatus
  claimCountResult : Except GoError Nat

/-- `func (g *GamePlayer) Status() gameTypes.GameStatus` - returns the
cached status; it reads `g.status` and performs no mutation. -/
def Status (g : GamePlayer) : GameStatus :=
  g.status

/-- The events of the act step inside `ProgressGame`: the trace log, the
call to `g.act(ctx)`, and the error log when the act returns an error. -/
def actEvents (g : GamePlayer) (env : ProgressEnv) : List Event :=
  [Event.log LogLevel.trace "Checking if actions are required", Event.actCalled] ++
    match g.act env.ctx with
    | some _ => [Event.log LogLevel.error "Error when acting on game"]
    | none => []

/-- `func (g *GamePlayer) logGameStatus` - the events it emits given the
freshly fetched status: for an in-progress game it fetches the claim count
(logging at error level on failure, info on success); for a terminal status
it compares against the expected status implied by the stance and logs
"Game won" at info level or "Game lost" at error level. -/
def logGameStatus (g : GamePlayer) (env : ProgressEnv) (status : GameStatus) : List Event :=
  if status = GameStatus.inProgress then
    Event.getClaimCountCalled ::
      match env.claimCountResult with
      | .error _ => [Event.log LogLevel.error "Failed to get claim count for in progress game"]
      | .ok _ => [Event.log LogLevel.info "Game info"]
  else
    let expectedStatus :=
      if g.agreeWithProposedOutput then GameStatus.challengerWon else GameStatus.defenderWon
    if expectedStatus = status then [Event.log LogLevel.info "Game won"]
    else [Event.log LogLevel.error "Game lost"]

/-- `func (g *GamePlayer) ProgressGame` - returns the updated player, the
returned status and the emitted events. If the cached status is not
InProgress it skips; otherwise it acts (errors logged, not propagated),
re-fetches status (on failure returning InProgress without updating state),
then logs the outcome and caches the fetched status. -/
def ProgressGame (g : GamePlayer) (env : ProgressEnv) : GamePlayer × GameStatus × List Event :=
  if g.status ≠ GameStatus.inProgress then
    (g, g.status, [Event.log LogLevel.trace "Skipping completed game"])
  else
    match env.statusResult with
    | .error _ =>
        (g, GameStatus.inProgress,
          actEvents g env ++
            [Event.getStatusCalled, Event.log LogLevel.warn "Unable to retrieve game status"])
    | .ok status =>
        ({ g with status := status }, status,
          actEvents g env ++ Event.getStatusCalled :: logGameStatus g env status)

/-- Repeated `ProgressGame` calls driven by an external caller, one
environment per cycle. -/
def progressSeq (g : GamePlayer) (envs : List ProgressEnv) : GamePlayer :=
  envs.foldl (fun p e => (ProgressGame p e).1) g

/-- The prestate validator returned by the resource creator:
`func(ctx, gameContract) error`. -/
abbrev PrestateValidator := Ctx → Loader → Option GoError

/-- Environment of one `NewGamePlayer` call: the configured stance and the
results the external world would return for each fallible step, in the order
the code may perform them. `creator` is the injected `resourceCreator`
factory, applied to the fetched game depth (the address and directory
arguments are opaque to player.go and are absorbed into the function).
`agentAct` stands for `NewAgent(...).Act`, the act closure of the fully
constructed player (the agent internals are outside this file's scope). -/
structure ConstructEnv where
  ctx : Ctx
  logger : Logger
  agreeWithProposedOutput : Bool
  contractResult : Except GoError Loader
  statusResult : Except GoError GameStatus
  maxDepthResult : Except GoError Nat
  creator : Nat → Except GoError (TraceAccessor × OracleUpdater × PrestateValidator)
  responderResult : Except GoError Responder
  agentAct : Ctx → Option GoError

/-- `func NewGamePlayer` - creates the contract wrapper, fetches the status,
and if the game is already resolved returns a no-op player without building
any further resources; otherwise fetches the depth, calls the resource
creator, validates the absolute prestate, creates the responder and returns
the full player. Every failure aborts with a wrapped error. The second
component records the external calls performed and the log lines emitted. -/
def NewGamePlayer (env : ConstructEnv) : Except GoError GamePlayer × List Event :=
  match env.contractResult with
  | .error e =>
      (.error ("failed to create fault dispute game contract wrapper: " ++ e),
        [Event.contractCreateCalled])
  | .ok loader =>
      match env.statusResult with
      | .error e =>
          (.error ("failed to fetch game status: " ++ e),
            [Event.contractCreateCalled, Event.statusFetchCalled])
      | .ok status =>
          if status ≠ GameStatus.inProgress then
            (.ok
              { logger := env.logger
                loader := loader
                agreeWithProposedOutput := env.agreeWithProposedOutput
                status := status
                act := fun _ => none },
              [Event.contractCreateCalled, Event.statusFetchCalled,
                Event.log LogLevel.info "Game already resolved"])
          else
            match env.maxDepthResult with
            | .error e =>
                (.error ("failed to fetch the game depth: " ++ e),
                  [Event.contractCreateCalled, Event.statusFetchCalled,
                    Event.depthFetchCalled])
            | .ok gameDepth =>
                match env.creator gameDepth with
                | .error e =>
                    (.error ("failed to create trace provider: " ++ e),
                      [Event.contractCreateCalled, Event.statusFetchCalled,
                        Event.depthFetchCalled, Event.creatorCalled])
                | .ok (_provider, _updater, prestateValidator) =>
                    match prestateValidator env.ctx loader with
                    | some e =>
                        (.error ("failed to validate absolute prestate: " ++ e),
                          [Event.contractCreateCalled, Event.statusFetchCalled,
                            Event.depthFetchCalled, Event.creatorCalled,
                            Event.prestateValidatorCalled])
                    | none =>
                        match env.responderResult with
                        | .error e =>
                            (.error ("failed to create the responder: " ++ e),
                              [Event.contractCreateCalled, Event.statusFetchCalled,
                                Event.depthFetchCalled, Event.creatorCalled,
                                Event.prestateValidatorCalled,
                                Event.responderCreateCalled])
                        | .ok _responder =>
                            (.ok
                              { act := env.agentAct
                                agreeWithProposedOutput := env.agreeWithProposedOutput
                                loader := loader
                                logger := env.logger
                                status := status },
                              [Event.contractCreateCalled, Event.statusFetchCalled,
                                Event.depthFetchCalled, Event.creatorCalled,
                                Event.prestateValidatorCalled,
                                Event.responderCreateCalled])

/-! ## Helper lemmas -/

/-- A call on a player whose cached status is not InProgress takes the skip
branch: unchanged player, cached status returned, only a trace log. -/
theorem progressGame_terminal {g : GamePlayer} (env : ProgressEnv)
    (h : g.status ≠ GameStatus.inProgress) :
    ProgressGame g env = (g, g.status, [Event.log LogLevel.trace "Skipping completed game"]) := by
  simp [ProgressGame, h]

/-- A call on an in-progress player whose status re-fetch fails returns
InProgress with the player unchanged. -/
theorem progressGame_fetchError {g : GamePlayer} {env : ProgressEnv} {e : GoError}
    (hg : g.status = GameStatus.inProgress) (hf : env.statusResult = .error e) :
    ProgressGame g env =
      (g, GameStatus.inProgress,
        actEvents g env ++
          [Event.getStatusCalled, Event.log LogLevel.warn "Unable to retrieve game status"]) := by
  simp [ProgressGame, hg, hf]

/-- A call on an in-progress player whose status re-fetch succeeds caches and
returns the fetched value. -/
theorem progressGame_fetchOk {g : GamePlayer} {env : ProgressEnv} {s : GameStatus}
    (hg : g.status = GameStatus.inProgress) (hf : env.statusResult = .ok s) :
    ProgressGame g env =
      ({ g with status := s }, s,
        actEvents g env ++ Event.getStatusCalled :: logGameStatus g env s) := by
  simp [ProgressGame, hg, hf]

/-- The act-step events contain exactly one act call and no loader calls. -/
theorem actEvents_spec (g : GamePlayer) (env : ProgressEnv) :
    (actEvents g env).count Event.actCalled = 1 ∧
    Event.getStatusCalled ∉ actEvents g env ∧
    Event.getClaimCountCalled ∉ actEvents g env ∧
    (∀ msg, Event.log LogLevel.info msg ∉ actEvents g env) ∧
    (∀ msg, Event.log LogLevel.warn msg ∉ actEvents g env) := by
  cases hact : g.act env.ctx <;> simp [actEvents, hact]

/-- The log-status events never contain an act call. -/
theorem actCalled_not_mem_logGameStatus (g : GamePlayer) (env : ProgressEnv)
    (s : GameStatus) : Event.actCalled ∉ logGameStatus g env s := by
  unfold logGameStatus
  cases env.claimCountResult <;> cases s <;> cases hag : g.agreeWithProposedOutput <;>
    simp [hag]

/-- A player whose cached status is terminal is a fixed point of any
sequence of `ProgressGame` calls. -/
theorem progressSeq_fixed (g : GamePlayer) (h : g.status ≠ GameStatus.inProgress) :
    ∀ envs : List ProgressEnv, progressSeq g envs = g := by
  intro envs
  induction envs with
  | nil => rfl
  | cons e es ih =>
      have hstep : (ProgressGame g e).1 = g := by rw [progressGame_terminal e h]
      show progressSeq (ProgressGame g e).1 es = g
      rw [hstep]
      exact ih

/-! ## Sample concrete inputs for witnesses -/

def sampleLoader : Loader := ⟨7⟩

def sampleTerminalPlayer : GamePlayer where
  act := fun _ => none
  agreeWithProposedOutput := true
  loader := sampleLoader
  logger := 0
  status := GameStatus.defenderWon

def sampleInProgressPlayer : GamePlayer where
  act := fun _ => some "act failed"
  agreeWithProposedOutput := true
  loader := sampleLoader
  logger := 0
  status := GameStatus.inProgress

def sampleOkEnv : ProgressEnv where
  ctx := 0
  statusResult := .ok GameStatus.challengerWon
  claimCountResult := .ok 3

def sampleFailEnv : ProgressEnv where
  ctx := 0
  statusResult := .error "rpc down"
  claimCountResult := .ok 3

/-! ## Claims -/

/-- Claim C2: for every GamePlayer whose cached status is not InProgress,
ProgressGame does not invoke the act step, does not fetch status from the
loader, does not modify the player, and returns the cached status; under any
sequence of ProgressGame calls the cached status stays the same. -/
theorem C2_terminal_status_absorbing (g : GamePlayer)
    (h : g.status ≠ GameStatus.inProgress) :
    (∀ env : ProgressEnv,
      (ProgressGame g env).1 = g ∧
      (ProgressGame g env).2.1 = g.status ∧
      Event.actCalled ∉ (ProgressGame g env).2.2 ∧
      Event.getStatusCalled ∉ (ProgressGame g env).2.2) ∧
    ∀ envs : List ProgressEnv, (progressSeq g envs).status = g.status := by
  constructor
  · intro env
    rw [progressGame_terminal env h]
    simp
  · intro envs
    rw [progressSeq_fixed g h envs]

/-- Witness for C2 at a concrete terminal player and environments. -/
theorem C2_terminal_status_absorbing_witness :
    sampleTerminalPlayer.status ≠ GameStatus.inProgress ∧
    (ProgressGame sampleTerminalPlayer sampleOkEnv).2.1 = GameStatus.defenderWon ∧
    (progressSeq sampleTerminalPlayer [sampleOkEnv, sampleFailEnv]).status =
      GameStatus.defenderWon := by
  have h := C2_terminal_status_absorbing sampleTerminalPlayer (by decide)
  exact ⟨by decide, (h.1 sampleOkEnv).2.1, h.2 [sampleOkEnv, sampleFailEnv]⟩

/-- Claim C3: for an in-progress player, a failing status re-fetch makes
ProgressGame return InProgress and leave the player unmodified. -/
theorem C3_transient_fetch_failure (g : GamePlayer) (env : ProgressEnv) (e : GoError)
    (hg : g.status = GameStatus.inProgress) (hf : env.statusResult = .error e) :
    (ProgressGame g env).2.1 = GameStatus.inProgress ∧
    (ProgressGame g env).1 = g := by
  rw [progressGame_fetchError hg hf]
  exact ⟨rfl, rfl⟩

/-- Witness for C3 at a concrete in-progress player and failing fetch. -/
theorem C3_transient_fetch_failure_witness :
    sampleInProgressPlayer.status = GameStatus.inProgress ∧
    sampleFailEnv.statusResult = .error "rpc down" ∧
    (ProgressGame sampleInProgressPlayer sampleFailEnv).2.1 = GameStatus.inProgress ∧
    (ProgressGame sampleInProgressPlayer sampleFailEnv).1 = sampleInProgressPlayer := by
  have h := C3_transient_fetch_failure sampleInProgressPlayer sampleFailEnv "rpc down" rfl rfl
  exact ⟨rfl, rfl, h.1, h.2⟩

/-- Claim C7: for an in-progress player, a successful status re-fetch updates
the cached status to the fetched value, ProgressGame returns that value, and
a subsequent Status call returns the same value. -/
theorem C7_fetch_success_updates_cache (g : GamePlayer) (env : ProgressEnv) (s : GameStatus)
    (hg : g.status = GameStatus.inProgress) (hs : env.statusResult = .ok s) :
    (ProgressGame g env).1.status = s ∧
    (ProgressGame g env).2.1 = s ∧
    Status (ProgressGame g env).1 = s := by
  rw [progressGame_fetchOk hg hs]
  exact ⟨rfl, rfl, rfl⟩

/-- Witness for C7 at a concrete in-progress player and successful fetch. -/
theorem C7_fetch_success_updates_cache_witness :
    sampleInProgressPlayer.status = GameStatus.inProgress ∧
    sampleOkEnv.statusResult = .ok GameStatus.challengerWon ∧
    (ProgressGame sampleInProgressPlayer sampleOkEnv).1.status = GameStatus.challengerWon ∧
    (ProgressGame sampleInProgressPlayer sampleOkEnv).2.1 = GameStatus.challengerWon ∧
    Status (ProgressGame sampleInProgressPlayer sampleOkEnv).1 = GameStatus.challengerWon := by
  have h := C7_fetch_success_updates_cache sampleInProgressPlayer sampleOkEnv
    GameStatus.challengerWon rfl rfl
  exact ⟨rfl, rfl, h.1, h.2.1, h.2.2⟩

/-- Claim C9: on every ProgressGame call, the returned status equals the
status cached in the resulting player (what Status returns afterwards). -/
theorem C9_return_equals_cached (g : GamePlayer) (env : ProgressEnv) :
    (ProgressGame g env).2.1 = Status (ProgressGame g env).1 := by
  by_cases h : g.status = GameStatus.inProgress
  · cases hf : env.statusResult with
    | error e =>
        rw [progressGame_fetchError h hf]
        simp [Status, h]
    | ok s =>
        rw [progressGame_fetchOk h hf]
        rfl
  · rw [progressGame_terminal env h]
    rfl

/-- Claim C10: ProgressGame mutates only the status field - the act closure,
the stance, the loader and the logger are unchanged - and Status reads the
cached status without mutating anything (it is a pure projection). -/
theorem C10_frame_only_status (g : GamePlayer) (env : ProgressEnv) :
    (ProgressGame g env).1.act = g.act ∧
    (ProgressGame g env).1.agreeWithProposedOutput = g.agreeWithProposedOutput ∧
    (ProgressGame g env).1.loader = g.loader ∧
    (ProgressGame g env).1.logger = g.logger ∧
    Status g = g.status := by
  by_cases h : g.status = GameStatus.inProgress
  · cases hf : env.statusResult with
    | error e =>
        rw [progressGame_fetchError h hf]
        exact ⟨rfl, rfl, rfl, rfl, rfl⟩
    | ok s =>
        rw [progressGame_fetchOk h hf]
        exact ⟨rfl, rfl, rfl, rfl, rfl⟩
  · rw [progressGame_terminal env h]
    exact ⟨rfl, rfl, rfl, rfl, rfl⟩

/-- The only error-level line the act step can emit is the acting-error log. -/
theorem errorLog_mem_actEvents {g : GamePlayer} {env : ProgressEnv} {msg : String}
    (hmem : Event.log LogLevel.error msg ∈ actEvents g env) :
    msg = "Error when acting on game" := by
  cases hact : g.act env.ctx <;> simp [actEvents, hact] at hmem
  exact hmem

/-- For a terminal status, logGameStatus emits exactly one outcome line:
"Game won" at info level when the stance matches the result, otherwise
"Game lost" at error level. -/
theorem logGameStatus_terminal (g : GamePlayer) (env : ProgressEnv) {s : GameStatus}
    (hterm : s ≠ GameStatus.inProgress) :
    logGameStatus g env s =
      if (g.agreeWithProposedOutput = true ∧ s = GameStatus.challengerWon) ∨
          (g.agreeWithProposedOutput = false ∧ s = GameStatus.defenderWon)
      then [Event.log LogLevel.info "Game won"]
      else [Event.log LogLevel.error "Game lost"] := by
  cases s with
  | inProgress => exact absurd rfl hterm
  | challengerWon => cases hag : g.agreeWithProposedOutput <;> simp [logGameStatus, hag]
  | defenderWon => cases hag : g.agreeWithProposedOutput <;> simp [logGameStatus, hag]

/-- True when the event list contains a warn-level log line. -/
def isWarnLog : Event → Bool
  | Event.log LogLevel.warn _ => true
  | _ => false

/-- Whether any warn-level log line was emitted. -/
def hasWarnLog (evs : List Event) : Bool :=
  evs.any isWarnLog

/-- Claim C4: for an in-progress player, ProgressGame invokes the act step
exactly once, and even when the act step returns an error the call still
proceeds to re-fetch the status (the error never propagates - ProgressGame
always returns a status by construction). -/
theorem C4_act_invoked_once_errors_swallowed (g : GamePlayer) (env : ProgressEnv)
    (hg : g.status = GameStatus.inProgress) :
    (ProgressGame g env).2.2.count Event.actCalled = 1 ∧
    Event.getStatusCalled ∈ (ProgressGame g env).2.2 := by
  obtain ⟨hcount, -, -, -, -⟩ := actEvents_spec g env
  cases hf : env.statusResult with
  | error e =>
      rw [progressGame_fetchError hg hf]
      refine ⟨?_, by simp⟩
      simp [List.count_append, List.count_cons, hcount]
  | ok s =>
      rw [progressGame_fetchOk hg hf]
      refine ⟨?_, by simp⟩
      have hno : (logGameStatus g env s).count Event.actCalled = 0 :=
        List.count_eq_zero.mpr (actCalled_not_mem_logGameStatus g env s)
      simp [List.count_append, List.count_cons, hcount, hno]

/-- Witness for C4 at a concrete player whose act step fails. -/
theorem C4_act_invoked_once_errors_swallowed_witness :
    sampleInProgressPlayer.status = GameStatus.inProgress ∧
    sampleInProgressPlayer.act 0 = some "act failed" ∧
    (ProgressGame sampleInProgressPlayer sampleOkEnv).2.2.count Event.actCalled = 1 ∧
    Event.getStatusCalled ∈ (ProgressGame sampleInProgressPlayer sampleOkEnv).2.2 := by
  have h := C4_act_invoked_once_errors_swallowed sampleInProgressPlayer sampleOkEnv rfl
  exact ⟨rfl, rfl, h.1, h.2⟩

/-- Claim C5: when an in-progress game re-fetches a terminal status, the
outcome is logged as a win exactly when the stance matches the result
(agree with challengerWon, or disagree with defenderWon); every other
pairing is logged as a loss. -/
theorem C5_stance_outcome_consistency (g : GamePlayer) (env : ProgressEnv) (s : GameStatus)
    (hg : g.status = GameStatus.inProgress) (hs : env.statusResult = .ok s)
    (hterm : s ≠ GameStatus.inProgress) :
    (Event.log LogLevel.info "Game won" ∈ (ProgressGame g env).2.2 ↔
      (g.agreeWithProposedOutput = true ∧ s = GameStatus.challengerWon) ∨
      (g.agreeWithProposedOutput = false ∧ s = GameStatus.defenderWon)) ∧
    (Event.log LogLevel.error "Game lost" ∈ (ProgressGame g env).2.2 ↔
      ¬ ((g.agreeWithProposedOutput = true ∧ s = GameStatus.challengerWon) ∨
        (g.agreeWithProposedOutput = false ∧ s = GameStatus.defenderWon))) := by
  obtain ⟨-, -, -, hinfo, -⟩ := actEvents_spec g env
  have hlostact : Event.log LogLevel.error "Game lost" ∉ actEvents g env := by
    intro hmem
    exact absurd (errorLog_mem_actEvents hmem) (by decide)
  rw [progressGame_fetchOk hg hs, logGameStatus_terminal g env hterm]
  by_cases hcond : (g.agreeWithProposedOutput = true ∧ s = GameStatus.challengerWon) ∨
      (g.agreeWithProposedOutput = false ∧ s = GameStatus.defenderWon)
  · rw [if_pos hcond]
    constructor
    · simp [hcond]
    · simp [hcond, hlostact]
  · rw [if_neg hcond]
    constructor
    · simp [hcond, hinfo "Game won"]
    · simp [hcond, hlostact]

/-- Witness for C5: agreeing stance and a challenger win log "Game won". -/
theorem C5_stance_outcome_consistency_witness :
    sampleInProgressPlayer.agreeWithProposedOutput = true ∧
    sampleOkEnv.statusResult = .ok GameStatus.challengerWon ∧
    Event.log LogLevel.info "Game won" ∈
      (ProgressGame sampleInProgressPlayer sampleOkEnv).2.2 ∧
    Event.log LogLevel.error "Game lost" ∉
      (ProgressGame sampleInProgressPlayer sampleOkEnv).2.2 := by
  have h := C5_stance_outcome_consistency sampleInProgressPlayer sampleOkEnv
    GameStatus.challengerWon rfl rfl (by decide)
  refine ⟨rfl, rfl, h.1.mpr (Or.inl ⟨rfl, rfl⟩), fun hmem => ?_⟩
  exact (h.2.mp hmem) (Or.inl ⟨rfl, rfl⟩)

/-- Concrete environment where the fetched status is still InProgress and the
claim-count fetch fails. -/
def sampleClaimCountFailEnv : ProgressEnv where
  ctx := 0
  statusResult := .ok GameStatus.inProgress
  claimCountResult := .error "boom"

/-- Counterexample for C8 as stated: on a transient claim-count failure the
code emits no warn-level line at all (the failure is logged at error level),
even though ProgressGame does return InProgress. -/
theorem C8_counterexample :
    sampleInProgressPlayer.status = GameStatus.inProgress ∧
    sampleClaimCountFailEnv.statusResult = .ok GameStatus.inProgress ∧
    sampleClaimCountFailEnv.claimCountResult = .error "boom" ∧
    (ProgressGame sampleInProgressPlayer sampleClaimCountFailEnv).2.1 =
      GameStatus.inProgress ∧
    hasWarnLog (ProgressGame sampleInProgressPlayer sampleClaimCountFailEnv).2.2 = false := by
  exact ⟨rfl, rfl, rfl, rfl, rfl⟩

/-- Claim C8 (amended): when the re-fetched status is InProgress and the
claim-count fetch fails transiently, ProgressGame still returns InProgress
with the cached status InProgress, the failure is logged at error level, and
no error propagates to the caller. -/
theorem C8_claimcount_failure_tolerated (g : GamePlayer) (env : ProgressEnv) (e : GoError)
    (hg : g.status = GameStatus.inProgress)
    (hs : env.statusResult = .ok GameStatus.inProgress)
    (hc : env.claimCountResult = .error e) :
    (ProgressGame g env).2.1 = GameStatus.inProgress ∧
    (ProgressGame g env).1.status = GameStatus.inProgress ∧
    Event.log LogLevel.error "Failed to get claim count for in progress game" ∈
      (ProgressGame g env).2.2 := by
  rw [progressGame_fetchOk hg hs]
  refine ⟨rfl, rfl, ?_⟩
  simp [logGameStatus, hc]

/-- Witness for the amended C8 at a concrete player and environment. -/
theorem C8_claimcount_failure_tolerated_witness :
    sampleInProgressPlayer.status = GameStatus.inProgress ∧
    (ProgressGame sampleInProgressPlayer sampleClaimCountFailEnv).2.1 =
      GameStatus.inProgress ∧
    (ProgressGame sampleInProgressPlayer sampleClaimCountFailEnv).1.status =
      GameStatus.inProgress ∧
    Event.log LogLevel.error "Failed to get claim count for in progress game" ∈
      (ProgressGame sampleInProgressPlayer sampleClaimCountFailEnv).2.2 := by
  have h := C8_claimcount_failure_tolerated sampleInProgressPlayer
    sampleClaimCountFailEnv "boom" rfl rfl rfl
  exact ⟨rfl, h.1, h.2.1, h.2.2⟩

/-- Claim C1: when the status fetched at construction is terminal,
NewGamePlayer succeeds with a no-op player: its act step always returns
success, construction never calls the resource creator (so no trace accessor
or oracle updater is built), never validates the prestate and never creates
a responder, and ProgressGame on that player is a no-op returning the cached
terminal status without invoking the act step. -/
theorem C1_already_resolved_noop (env : ConstructEnv) (loader : Loader) (s : GameStatus)
    (hc : env.contractResult = .ok loader) (hs : env.statusResult = .ok s)
    (hterm : s ≠ GameStatus.inProgress) :
    ∃ p : GamePlayer,
      (NewGamePlayer env).1 = .ok p ∧
      (∀ ctx, p.act ctx = none) ∧
      p.status = s ∧
      Event.creatorCalled ∉ (NewGamePlayer env).2 ∧
      Event.prestateValidatorCalled ∉ (NewGamePlayer env).2 ∧
      Event.responderCreateCalled ∉ (NewGamePlayer env).2 ∧
      ∀ penv : ProgressEnv,
        (ProgressGame p penv).1 = p ∧
        (ProgressGame p penv).2.1 = s ∧
        Event.actCalled ∉ (ProgressGame p penv).2.2 := by
  have hnew : NewGamePlayer env =
      (.ok
        { logger := env.logger
          loader := loader
          agreeWithProposedOutput := env.agreeWithProposedOutput
          status := s
          act := fun _ => none },
        [Event.contractCreateCalled, Event.statusFetchCalled,
          Event.log LogLevel.info "Game already resolved"]) := by
    simp [NewGamePlayer, hc, hs, hterm]
  refine ⟨{ logger := env.logger
            loader := loader
            agreeWithProposedOutput := env.agreeWithProposedOutput
            status := s
            act := fun _ => none },
    ?_, fun _ => rfl, rfl, ?_, ?_, ?_, ?_⟩
  · rw [hnew]
  · rw [hnew]; simp
  · rw [hnew]; simp
  · rw [hnew]; simp
  · intro penv
    rw [progressGame_terminal penv hterm]
    exact ⟨rfl, rfl, by simp⟩

/-- Concrete prestate validator that always succeeds. -/
def sampleValidator : PrestateValidator := fun _ _ => none

def sampleCEnvBase : ConstructEnv where
  ctx := 0
  logger := 0
  agreeWithProposedOutput := true
  contractResult := .ok sampleLoader
  statusResult := .ok GameStatus.inProgress
  maxDepthResult := .ok 4
  creator := fun _ => .ok (1, 2, sampleValidator)
  responderResult := .ok 3
  agentAct := fun _ => none

def cenvResolved : ConstructEnv :=
  { sampleCEnvBase with statusResult := .ok GameStatus.defenderWon }

/-- Witness for C1 at a concrete already-resolved construction environment. -/
theorem C1_already_resolved_noop_witness :
    cenvResolved.contractResult = .ok sampleLoader ∧
    cenvResolved.statusResult = .ok GameStatus.defenderWon ∧
    ∃ p : GamePlayer,
      (NewGamePlayer cenvResolved).1 = .ok p ∧
      (∀ ctx, p.act ctx = none) ∧
      p.status = GameStatus.defenderWon ∧
      Event.creatorCalled ∉ (NewGamePlayer cenvResolved).2 ∧
      Event.prestateValidatorCalled ∉ (NewGamePlayer cenvResolved).2 ∧
      Event.responderCreateCalled ∉ (NewGamePlayer cenvResolved).2 ∧
      ∀ penv : ProgressEnv,
        (ProgressGame p penv).1 = p ∧
        (ProgressGame p penv).2.1 = GameStatus.defenderWon ∧
        Event.actCalled ∉ (ProgressGame p penv).2.2 := by
  exact ⟨rfl, rfl,
    C1_already_resolved_noop cenvResolved sampleLoader GameStatus.defenderWon
      rfl rfl (by decide)⟩

/-- Claim C6: every construction-stage failure (contract wrapper creation,
status fetch, depth fetch, resource creator, prestate validation, responder
creation) aborts NewGamePlayer with an error wrapping the underlying one. -/
theorem C6_construction_failure_propagation (env : ConstructEnv) :
    (∀ e, env.contractResult = .error e →
      (NewGamePlayer env).1 =
        .error ("failed to create fault dispute game contract wrapper: " ++ e)) ∧
    (∀ loader e, env.contractResult = .ok loader → env.statusResult = .error e →
      (NewGamePlayer env).1 = .error ("failed to fetch game status: " ++ e)) ∧
    (∀ loader e, env.contractResult = .ok loader →
      env.statusResult = .ok GameStatus.inProgress → env.maxDepthResult = .error e →
      (NewGamePlayer env).1 = .error ("failed to fetch the game depth: " ++ e)) ∧
    (∀ loader d e, env.contractResult = .ok loader →
      env.statusResult = .ok GameStatus.inProgress → env.maxDepthResult = .ok d →
      env.creator d = .error e →
      (NewGamePlayer env).1 = .error ("failed to create trace provider: " ++ e)) ∧
    (∀ loader d ta ou v e, env.contractResult = .ok loader →
      env.statusResult = .ok GameStatus.inProgress → env.maxDepthResult = .ok d →
      env.creator d = .ok (ta, ou, v) → v env.ctx loader = some e →
      (NewGamePlayer env).1 = .error ("failed to validate absolute prestate: " ++ e)) ∧
    (∀ loader d ta ou v e, env.contractResult = .ok loader →
      env.statusResult = .ok GameStatus.inProgress → env.maxDepthResult = .ok d →
      env.creator d = .ok (ta, ou, v) → v env.ctx loader = none →
      env.responderResult = .error e →
      (NewGamePlayer env).1 = .error ("failed to create the responder: " ++ e)) := by
  refine ⟨?_, ?_, ?_, ?_, ?_, ?_⟩
  · intro e h1
    simp [NewGamePlayer, h1]
  · intro loader e h1 h2
    simp [NewGamePlayer, h1, h2]
  · intro loader e h1 h2 h3
    simp [NewGamePlayer, h1, h2, h3]
  · intro loader d e h1 h2 h3 h4
    simp [NewGamePlayer, h1, h2, h3, h4]
  · intro loader d ta ou v e h1 h2 h3 h4 h5
    simp [NewGamePlayer, h1, h2, h3, h4, h5]
  · intro loader d ta ou v e h1 h2 h3 h4 h5 h6
    simp [NewGamePlayer, h1, h2, h3, h4, h5, h6]

def cenvContractFail : ConstructEnv :=
  { sampleCEnvBase with contractResult := .error "no contract" }

def cenvStatusFail : ConstructEnv :=
  { sampleCEnvBase with statusResult := .error "no status" }

def cenvDepthFail : ConstructEnv :=
  { sampleCEnvBase with maxDepthResult := .error "no depth" }

def cenvCreatorFail : ConstructEnv :=
  { sampleCEnvBase with creator := fun _ => .error "no creator" }

def badValidator : PrestateValidator := fun _ _ => some "bad prestate"

def cenvPrestateFail : ConstructEnv :=
  { sampleCEnvBase with creator := fun _ => .ok (1, 2, badValidator) }

def cenvResponderFail : ConstructEnv :=
  { sampleCEnvBase with responderResult := .error "no responder" }

/-- Witness for C6: one concrete environment per failure stage. -/
theorem C6_construction_failure_propagation_witness :
    (NewGamePlayer cenvContractFail).1 =
      .error "failed to create fault dispute game contract wrapper: no contract" ∧
    (NewGamePlayer cenvStatusFail).1 = .error "failed to fetch game status: no status" ∧
    (NewGamePlayer cenvDepthFail).1 = .error "failed to fetch the game depth: no depth" ∧
    (NewGamePlayer cenvCreatorFail).1 =
      .error "failed to create trace provider: no creator" ∧
    (NewGamePlayer cenvPrestateFail).1 =
      .error "failed to validate absolute prestate: bad prestate" ∧
    (NewGamePlayer cenvResponderFail).1 =
      .error "failed to create the responder: no responder" := by
  exact ⟨(C6_construction_failure_propagation cenvContractFail).1 "no contract" rfl,
    (C6_construction_failure_propagation cenvStatusFail).2.1 sampleLoader "no status" rfl rfl,
    (C6_construction_failure_propagation cenvDepthFail).2.2.1 sampleLoader "no depth"
      rfl rfl rfl,
    (C6_construction_failure_propagation cenvCreatorFail).2.2.2.1 sampleLoader 4 "no creator"
      rfl rfl rfl rfl,
    (C6_construction_failure_propagation cenvPrestateFail).2.2.2.2.1 sampleLoader 4 1 2
      badValidator "bad prestate" rfl rfl rfl rfl rfl,
    (C6_construction_failure_propagation cenvResponderFail).2.2.2.2.2 sampleLoader 4 1 2
      sampleValidator "no responder" rfl rfl rfl rfl rfl rfl⟩

end OpChallenger
